import Mathlib

/-
Shallow embedding of the FixMyCity backend authentication and authorization
guard chain (src/dependencies/authn.py, src/dependencies/authnz.py) and the
issue endpoints that consume it (src/routes/issues.py).

Modelling conventions:
- A decoded JWT payload is the record Claims with the three claims the
  application reads and writes (id, role, exp).  The id and role claims may
  be absent from a token, so they are Options; every token issued by the
  login endpoint carries an exp claim, so exp is a plain timestamp.
- A bearer token is modelled as the payload together with the key and the
  algorithm it was signed with; jwt.decode succeeds exactly when the
  configured key and algorithm match the ones the token was signed with
  (signature forgery is outside the model).  PyJWT checks the signature
  before the expiry claim, and treats exp less than or equal to now as
  expired, which is reproduced here.
- The Mongo users collection is a list of user records; find_one on the _id
  is a lookup by the canonical lowercase hex string of the ObjectId.
- Each HTTPException raised by the guard chain becomes a constructor of
  AuthError; httpStatus and httpDetail give the caller-visible status code
  and detail string exactly as the source writes them.
-/

namespace FixMyCity

/-- A decoded JWT payload, with the claims the application uses: the subject
identifier claim (key id), the role claim, and the expiry timestamp. -/
structure Claims where
  id : Option String
  role : Option String
  exp : Nat
deriving DecidableEq, Repr

/-- A bearer token: its payload plus the key and algorithm used to sign it. -/
structure Token where
  payload : Claims
  key : String
  alg : String
deriving DecidableEq, Repr

/-- Failures of jwt.decode that the source catches separately. -/
inductive JwtError where
  | expiredSignature
  | invalidToken
deriving DecidableEq, Repr

/-- jwt.decode(jwt, key, algorithms): the signature and algorithm are checked
first (InvalidTokenError), then the exp claim against the current time
(ExpiredSignatureError), then the payload is returned. -/
def jwtDecode (token : Token) (key : String) (algorithm : String) (now : Nat) :
    Except JwtError Claims :=
  if token.alg ≠ algorithm ∨ token.key ≠ key then .error .invalidToken
  else if token.payload.exp ≤ now then .error .expiredSignature
  else .ok token.payload

/-- The error taxonomy: each constructor is one HTTPException site in the
guard chain of src/dependencies/authn.py and src/dependencies/authnz.py. -/
inductive AuthError where
  | configError
  | expiredToken
  | invalidToken
  | missingSubject
  | invalidIdFormat
  | identityNotFound
  | forbidden (allowedRoles : List String)
deriving DecidableEq, Repr

/-- The HTTP status code each failure is surfaced with. -/
def httpStatus : AuthError → Nat
  | .configError => 500
  | .forbidden _ => 403
  | _ => 401

/-- The caller-visible detail string of each failure, verbatim from the
HTTPException detail arguments in the source. -/
def httpDetail : AuthError → String
  | .configError => "JWT secret key not configured"
  | .expiredToken => "Token has expired"
  | .invalidToken => "Invalid authentication token"
  | .missingSubject => "Invalid token: user ID missing"
  | .invalidIdFormat => "Invalid user ID in token"
  | .identityNotFound => "Authenticated user not found in database"
  | .forbidden roles => "Access denied. Allowed roles: " ++ String.intercalate ", " roles

/-- Process environment read by the guard chain: JWT_SECRET_KEY and
JWT_ALGORITHM.  os.getenv returns None when a variable is unset. -/
structure Env where
  jwtSecretKey : Option String
  jwtAlgorithm : Option String
deriving DecidableEq, Repr

/-- Python truthiness test of the source line if not jwt_secret: the secret
is missing when the variable is unset or set to the empty string. -/
def secretFalsy : Option String → Bool
  | none => true
  | some s => s == ""

/-- is_authenticated (src/dependencies/authn.py): reads the secret and the
algorithm from the environment, fails with 500 when the secret is falsy,
decodes the token, maps ExpiredSignatureError and InvalidTokenError to 401
responses, requires the id claim, and returns the decoded payload. -/
def is_authenticated (env : Env) (now : Nat) (token : Token) :
    Except AuthError Claims :=
  match env.jwtSecretKey with
  | none => .error .configError
  | some jwt_secret =>
    if jwt_secret = "" then .error .configError
    else
      match jwtDecode token jwt_secret (env.jwtAlgorithm.getD "HS256") now with
      | .error .expiredSignature => .error .expiredToken
      | .error .invalidToken => .error .invalidToken
      | .ok payload =>
        if payload.id = none then .error .missingSubject
        else .ok payload

/-- bson ObjectId.is_valid on a string: exactly 24 hexadecimal characters. -/
def isHexChar (c : Char) : Bool :=
  c.isDigit || (decide (97 ≤ c.toNat) && decide (c.toNat ≤ 102))
    || (decide (65 ≤ c.toNat) && decide (c.toNat ≤ 70))

/-- Validity test of an ObjectId string, as in bson ObjectId.is_valid. -/
def objectIdIsValid (s : String) : Bool :=
  s.length == 24 && s.data.all isHexChar

/-- Lowercase an ASCII character (the hex digits of an ObjectId string). -/
def charLower (c : Char) : Char :=
  if 65 ≤ c.toNat ∧ c.toNat ≤ 90 then Char.ofNat (c.toNat + 32) else c

/-- Lowercase a string character by character; models the fact that
str(ObjectId(s)) is the lowercase form of the hex string s. -/
def strLower (s : String) : String := ⟨s.data.map charLower⟩

/-- A persisted user record, as registered by src/routes/users.py.  oid is
the canonical lowercase hex string of the Mongo _id.  The role key can be
absent from a stored document, hence the Option.  The created_at field is
never read by the guard chain and is not modelled. -/
structure UserRecord where
  oid : String
  username : String
  email : String
  password : String
  role : Option String
deriving DecidableEq, Repr

/-- users_collection.find_one on the _id field: ObjectId comparison is by
the 12 identifier bytes, so a hex string matches regardless of letter case;
this is modelled by lowercasing the looked-up string (stored oids are
canonical lowercase). -/
def usersFindOne (db : List UserRecord) (oid : String) : Option UserRecord :=
  db.find? (fun u => u.oid == oid)

/-- The resolved identity dict returned by authenticated_user: _id replaced
by its string form under the key id, and the role merged between store and
token. -/
structure Identity where
  id : String
  username : String
  email : String
  password : String
  role : String
deriving DecidableEq, Repr

/-- authenticated_user (src/dependencies/authn.py): reads the id claim,
rejects syntactically invalid ObjectIds with 401, looks the user up in the
users collection, rejects missing users with 401, and returns the record
with the effective role user.get(role, payload.get(role, user)). -/
def authenticated_user (db : List UserRecord) (payload : Claims) :
    Except AuthError Identity :=
  if objectIdIsValid (payload.id.getD "") then
    match usersFindOne db (strLower (payload.id.getD "")) with
    | none => .error .identityNotFound
    | some user =>
      .ok { id := strLower (payload.id.getD "")
            username := user.username
            email := user.email
            password := user.password
            role := user.role.getD (payload.role.getD "user") }
  else .error .invalidIdFormat

/-- check_roles, the inner dependency produced by has_roles
(src/dependencies/authnz.py): 403 when the role of the user is not among
the allowed roles, otherwise the user is returned unchanged. -/
def check_roles (allowed_roles : List String) (user : Identity) :
    Except AuthError Identity :=
  if user.role ∈ allowed_roles then .ok user
  else .error (.forbidden allowed_roles)

/-- The composed guard chain, as FastAPI evaluates the dependency stack of
a role-gated endpoint: is_authenticated, then authenticated_user, then
check_roles, each failure short-circuiting the rest. -/
def guardChain (env : Env) (now : Nat) (db : List UserRecord)
    (allowed : List String) (token : Token) : Except AuthError Identity :=
  match is_authenticated env now token with
  | .error e => .error e
  | .ok payload =>
    match authenticated_user db payload with
    | .error e => .error e
    | .ok user => check_roles allowed user

/-- Trace of one guard-chain evaluation: the outcome plus which stages ran.
decodeAttempted records whether jwt.decode was reached, resolverInvoked
whether authenticated_user ran, gateInvoked whether check_roles ran. -/
structure ChainTrace where
  result : Except AuthError Identity
  decodeAttempted : Bool
  resolverInvoked : Bool
  gateInvoked : Bool
deriving Repr

/-- The guard chain instrumented with stage-invocation flags, mirroring the
control flow of the three dependencies line by line. -/
def guardChainI (env : Env) (now : Nat) (db : List UserRecord)
    (allowed : List String) (token : Token) : ChainTrace :=
  match env.jwtSecretKey with
  | none => ⟨.error .configError, false, false, false⟩
  | some jwt_secret =>
    if jwt_secret = "" then ⟨.error .configError, false, false, false⟩
    else
      match jwtDecode token jwt_secret (env.jwtAlgorithm.getD "HS256") now with
      | .error .expiredSignature => ⟨.error .expiredToken, true, false, false⟩
      | .error .invalidToken => ⟨.error .invalidToken, true, false, false⟩
      | .ok payload =>
        if payload.id = none then ⟨.error .missingSubject, true, false, false⟩
        else
          match authenticated_user db payload with
          | .error e => ⟨.error e, true, true, false⟩
          | .ok user =>
            match check_roles allowed user with
            | .error e => ⟨.error e, true, true, true⟩
            | .ok u => ⟨.ok u, true, true, true⟩

/-- The instrumentation is faithful: the result field of the instrumented
chain is exactly the composed guard chain. -/
theorem guardChainI_result (env : Env) (now : Nat) (db : List UserRecord)
    (allowed : List String) (token : Token) :
    (guardChainI env now db allowed token).result =
      guardChain env now db allowed token := by
  unfold guardChainI guardChain is_authenticated
  cases env.jwtSecretKey with
  | none => rfl
  | some s =>
    by_cases hs : s = ""
    · simp only [if_pos hs]
    · simp only [if_neg hs]
      cases hdec : jwtDecode token s (env.jwtAlgorithm.getD "HS256") now with
      | error e => cases e <;> rfl
      | ok payload =>
        by_cases hid : payload.id = none
        · simp only [if_pos hid]
        · simp only [if_neg hid]
          cases hau : authenticated_user db payload with
          | error e => rfl
          | ok user =>
            dsimp only
            cases check_roles allowed user <;> rfl

/-- A stored issue document (src/routes/issues.py post_issue insert).  The
owner field holds whatever value FastAPI injects for the user_id parameter:
Depends(is_authenticated) injects the full decoded payload dict returned by
is_authenticated (the str annotation on the parameter is not enforced for
dependency results), so owner is a Claims value, not a string.  The Mongo
generated _id is outside the model, so the replace_mongo_id reshaping of
results is the identity on the modelled fields. -/
structure Issue where
  title : String
  description : String
  region : String
  gps_location : String
  flyer : String
  owner : Claims
  category : String
  status : String
deriving DecidableEq, Repr

/-- Failures of the issue endpoints relevant here: the 409 duplicate-title
conflict in post_issue and the 404 empty-listing response in get_my_issues. -/
inductive IssuesError where
  | conflict (title : String)
  | notFound
deriving DecidableEq, Repr

/-- post_issue (src/routes/issues.py): rejects a duplicate title for the
same owner with 409, otherwise inserts the new document with owner set to
the injected user_id value and status pending.  The collection is the list
of stored issues; flyerUrl stands for the secure_url returned by the
cloudinary upload. -/
def post_issue (issues : List Issue) (title description region gps_location : String)
    (flyerUrl : String) (user_id : Claims) (category : String) :
    Except IssuesError (List Issue) :=
  if 0 < (issues.filter (fun i => i.title == title && i.owner == user_id)).length
  then .error (.conflict title)
  else .ok (issues ++ [{ title := title
                         description := description
                         region := region
                         gps_location := gps_location
                         flyer := flyerUrl
                         owner := user_id
                         category := category
                         status := "pending" }])

/-- get_my_issues (src/routes/issues.py): returns the issues whose owner
field equals the injected user_id value, with 404 when there are none. -/
def get_my_issues (issues : List Issue) (user_id : Claims) :
    Except IssuesError (List Issue) :=
  let user_issues := issues.filter (fun i => i.owner == user_id)
  if user_issues.isEmpty then .error .notFound
  else .ok user_issues

/-- Equality of Except values over decidable payload types is decidable;
needed so that concrete guard-chain runs can be settled by decide. -/
instance {ε α : Type} [DecidableEq ε] [DecidableEq α] :
    DecidableEq (Except ε α) := fun a b =>
  match a, b with
  | .error x, .error y =>
    if h : x = y then .isTrue (by rw [h]) else .isFalse (by simp [h])
  | .ok x, .ok y =>
    if h : x = y then .isTrue (by rw [h]) else .isFalse (by simp [h])
  | .error _, .ok _ => .isFalse (by simp)
  | .ok _, .error _ => .isFalse (by simp)

/-- Inversion of a successful is_authenticated run: the returned payload is
the payload of the token and carries a subject identifier. -/
theorem is_authenticated_ok_inv (env : Env) (now : Nat) (token : Token)
    (payload : Claims) (h : is_authenticated env now token = .ok payload) :
    payload = token.payload ∧ payload.id ≠ none := by
  unfold is_authenticated at h
  cases hsk : env.jwtSecretKey with
  | none =>
    simp only [hsk] at h
    exact Except.noConfusion h
  | some sk =>
    simp only [hsk] at h
    by_cases hsk0 : sk = ""
    · simp only [if_pos hsk0] at h
      exact Except.noConfusion h
    · simp only [if_neg hsk0] at h
      cases hdec : jwtDecode token sk (env.jwtAlgorithm.getD "HS256") now with
      | error e => cases e <;> simp only [hdec] at h <;> exact Except.noConfusion h
      | ok p =>
        simp only [hdec] at h
        by_cases hp : p.id = none
        · simp only [if_pos hp] at h
          exact Except.noConfusion h
        · simp only [if_neg hp] at h
          injection h with h
          subst h
          have hpt : p = token.payload := by
            unfold jwtDecode at hdec
            by_cases hcond : token.alg ≠ env.jwtAlgorithm.getD "HS256" ∨ token.key ≠ sk
            · simp only [if_pos hcond] at hdec
              exact Except.noConfusion hdec
            · simp only [if_neg hcond] at hdec
              by_cases hexp : token.payload.exp ≤ now
              · simp only [if_pos hexp] at hdec
                exact Except.noConfusion hdec
              · simp only [if_neg hexp] at hdec
                injection hdec with hdec
                exact hdec.symm
          exact ⟨hpt, hp⟩

/-- Inversion of a successful authenticated_user run: some user record was
found under the subject identifier and the result is that record with the
_id stringified and the role merged. -/
theorem authenticated_user_ok_inv (db : List UserRecord) (payload : Claims)
    (identity : Identity) (h : authenticated_user db payload = .ok identity) :
    ∃ u, usersFindOne db (strLower (payload.id.getD "")) = some u ∧
      identity = { id := strLower (payload.id.getD "")
                   username := u.username
                   email := u.email
                   password := u.password
                   role := u.role.getD (payload.role.getD "user") } := by
  unfold authenticated_user at h
  by_cases hv : objectIdIsValid (payload.id.getD "")
  · simp only [if_pos hv] at h
    cases hf : usersFindOne db (strLower (payload.id.getD "")) with
    | none =>
      simp only [hf] at h
      exact Except.noConfusion h
    | some u =>
      simp only [hf] at h
      injection h with h
      exact ⟨u, rfl, h.symm⟩
  · simp only [if_neg hv] at h
    exact Except.noConfusion h

/-- A canonical 24-character ObjectId hex string used in concrete runs. -/
def sampleOid : String := "0123456789abcdef01234567"

/-- A decoded payload carrying subject, role, and expiry, as login issues. -/
def samplePayload : Claims := { id := some sampleOid, role := some "user", exp := 50 }

/-- A persisted user record whose stored role is authorities. -/
def sampleDbUser : UserRecord :=
  { oid := sampleOid, username := "ama", email := "ama@example.com"
    password := "hash", role := some "authorities" }

/-- The identity that resolving samplePayload against sampleDbUser yields. -/
def sampleIdentity : Identity :=
  { id := sampleOid, username := "ama", email := "ama@example.com"
    password := "hash", role := "authorities" }

/-- Claim C3: authorization by has_roles is a pure membership test.  For
every identity with effective role R and every permitted-role list S,
check_roles succeeds exactly when R is a member of S, and for the empty
permitted list it fails with Forbidden for every role. -/
theorem C3_role_gate_membership (allowed : List String) (user : Identity) :
    ((∃ u, check_roles allowed user = .ok u) ↔ user.role ∈ allowed) ∧
    check_roles [] user = .error (.forbidden []) := by
  refine ⟨⟨?_, ?_⟩, ?_⟩
  · rintro ⟨u, hu⟩
    unfold check_roles at hu
    by_cases hm : user.role ∈ allowed
    · exact hm
    · rw [if_neg hm] at hu
      exact Except.noConfusion hu
  · intro hm
    refine ⟨user, ?_⟩
    unfold check_roles
    rw [if_pos hm]
  · unfold check_roles
    rw [if_neg (List.not_mem_nil user.role)]

/-- Claim C8: the role gate is a pass-through.  Whenever check_roles
succeeds, the value it returns is the input identity itself, every field
unchanged. -/
theorem C8_gate_pass_through (allowed : List String) (user result : Identity)
    (h : check_roles allowed user = .ok result) : result = user := by
  unfold check_roles at h
  by_cases hm : user.role ∈ allowed
  · rw [if_pos hm] at h
    injection h with h
    exact h.symm
  · rw [if_neg hm] at h
    exact Except.noConfusion h

/-- Witness for C8 at a concrete permitted list and identity. -/
theorem C8_gate_pass_through_witness :
    check_roles ["authorities"] sampleIdentity = .ok sampleIdentity ∧
    sampleIdentity = sampleIdentity :=
  ⟨by decide, C8_gate_pass_through ["authorities"] sampleIdentity sampleIdentity (by decide)⟩

/-- Claim C6: a token signed with a secret different from the configured
signing secret is rejected by is_authenticated with the invalid-token
failure, never with the expired or missing-subject failures, whatever its
payload. -/
theorem C6_wrong_secret_invalid (s : String) (algEnv : Option String)
    (now : Nat) (token : Token) (hne : s ≠ "") (hkey : token.key ≠ s) :
    is_authenticated ⟨some s, algEnv⟩ now token = .error .invalidToken := by
  unfold is_authenticated
  dsimp only
  rw [if_neg hne]
  unfold jwtDecode
  rw [if_pos (Or.inr hkey)]

/-- A token signed with a key different from the configured secret. -/
def c6Token : Token := { payload := samplePayload, key := "other", alg := "HS256" }

/-- Witness for C6 at a concrete wrongly-signed token. -/
theorem C6_wrong_secret_invalid_witness :
    ("s3" : String) ≠ "" ∧ c6Token.key ≠ "s3" ∧
    is_authenticated ⟨some "s3", none⟩ 7 c6Token = .error .invalidToken :=
  ⟨by decide, by decide, C6_wrong_secret_invalid "s3" none 7 c6Token (by decide) (by decide)⟩

/-- Claim C7: a correctly signed, unexpired token whose payload lacks the
subject-identifier claim is rejected with the missing-subject failure, and
every successful verification returns a payload that carries a subject
identifier. -/
theorem C7_missing_subject (s : String) (algEnv : Option String) (now : Nat)
    (token : Token) (hne : s ≠ "") (hkey : token.key = s)
    (halg : token.alg = algEnv.getD "HS256") (hexp : now < token.payload.exp)
    (hid : token.payload.id = none) :
    is_authenticated ⟨some s, algEnv⟩ now token = .error .missingSubject ∧
    ∀ (env2 : Env) (now2 : Nat) (token2 : Token) (payload : Claims),
      is_authenticated env2 now2 token2 = .ok payload → payload.id ≠ none := by
  constructor
  · unfold is_authenticated
    dsimp only
    rw [if_neg hne]
    have hdec : jwtDecode token s ((some s, algEnv).2.getD "HS256") now =
        .ok token.payload := by
      unfold jwtDecode
      rw [if_neg ?_, if_neg (not_le.mpr hexp)]
      push_neg
      exact ⟨halg, hkey⟩
    rw [show ((⟨some s, algEnv⟩ : Env).jwtAlgorithm.getD "HS256") = algEnv.getD "HS256" from rfl] at *
    rw [hdec]
    dsimp only
    rw [if_pos hid]
  · intro env2 now2 token2 payload h
    exact (is_authenticated_ok_inv env2 now2 token2 payload h).2

/-- A correctly signed, unexpired token with no subject claim. -/
def c7Token : Token :=
  { payload := { id := none, role := some "user", exp := 100 }, key := "s3", alg := "HS256" }

/-- Witness for C7 at a concrete subjectless token. -/
theorem C7_missing_subject_witness :
    ("s3" : String) ≠ "" ∧ c7Token.key = "s3" ∧
    c7Token.alg = (none : Option String).getD "HS256" ∧
    (3 : Nat) < c7Token.payload.exp ∧ c7Token.payload.id = none ∧
    is_authenticated ⟨some "s3", none⟩ 3 c7Token = .error .missingSubject :=
  ⟨by decide, by decide, by decide, by decide, by decide,
    (C7_missing_subject "s3" none 3 c7Token (by decide) (by decide) (by decide)
      (by decide) (by decide)).1⟩

/-- Claim C5: for a correctly signed token whose expiry lies in the past,
the guard chain fails at the credential verifier with the expired-token
failure, and neither the identity resolver nor the role gate is invoked. -/
theorem C5_expired_short_circuit (s : String) (algEnv : Option String)
    (now : Nat) (db : List UserRecord) (allowed : List String) (token : Token)
    (hne : s ≠ "") (hkey : token.key = s)
    (halg : token.alg = algEnv.getD "HS256")
    (hexp : token.payload.exp < now) :
    guardChainI ⟨some s, algEnv⟩ now db allowed token =
      ⟨.error .expiredToken, true, false, false⟩ := by
  have hdec : jwtDecode token s (algEnv.getD "HS256") now =
      .error .expiredSignature := by
    unfold jwtDecode
    rw [if_neg ?_, if_pos (le_of_lt hexp)]
    push_neg
    exact ⟨halg, hkey⟩
  unfold guardChainI
  dsimp only
  rw [if_neg hne, hdec]

/-- A correctly signed token whose expiry is already in the past. -/
def c5Token : Token :=
  { payload := { id := some sampleOid, role := some "user", exp := 5 }
    key := "s3", alg := "HS256" }

/-- Witness for C5 at a concrete expired token. -/
theorem C5_expired_short_circuit_witness :
    ("s3" : String) ≠ "" ∧ c5Token.key = "s3" ∧
    c5Token.alg = (none : Option String).getD "HS256" ∧
    c5Token.payload.exp < 10 ∧
    guardChainI ⟨some "s3", none⟩ 10 [sampleDbUser] ["user"] c5Token =
      ⟨.error .expiredToken, true, false, false⟩ :=
  ⟨by decide, by decide, by decide, by decide,
    C5_expired_short_circuit "s3" none 10 [sampleDbUser] ["user"] c5Token
      (by decide) (by decide) (by decide) (by decide)⟩

/-- Claim C4: when the signing secret is absent (or empty, which the source
treats as absent), every guard-chain request fails uniformly with the
configuration error, jwt.decode is never attempted, and that error is a
constructor distinct from every per-request error of the taxonomy. -/
theorem C4_missing_secret_config_error (env : Env)
    (h : secretFalsy env.jwtSecretKey = true) :
    (∀ (now : Nat) (db : List UserRecord) (allowed : List String) (token : Token),
      guardChainI env now db allowed token =
        ⟨.error .configError, false, false, false⟩) ∧
    AuthError.configError ≠ .expiredToken ∧
    AuthError.configError ≠ .invalidToken ∧
    AuthError.configError ≠ .missingSubject ∧
    AuthError.configError ≠ .invalidIdFormat ∧
    AuthError.configError ≠ .identityNotFound ∧
    ∀ roles, AuthError.configError ≠ .forbidden roles := by
  refine ⟨?_, by decide, by decide, by decide, by decide, by decide, ?_⟩
  · intro now db allowed token
    unfold guardChainI
    cases hsk : env.jwtSecretKey with
    | none => rfl
    | some sk =>
      have hsk0 : sk = "" := by
        rw [hsk] at h
        unfold secretFalsy at h
        exact eq_of_beq h
      dsimp only
      rw [if_pos hsk0]
  · intro roles hcontra
    exact AuthError.noConfusion hcontra

/-- Witness for C4 with the secret unset, at a concrete request. -/
theorem C4_missing_secret_config_error_witness :
    secretFalsy (Env.mk none none).jwtSecretKey = true ∧
    guardChainI ⟨none, none⟩ 10 [sampleDbUser] ["user"] c5Token =
      ⟨.error .configError, false, false, false⟩ :=
  ⟨rfl, (C4_missing_secret_config_error ⟨none, none⟩ rfl).1 10 [sampleDbUser]
    ["user"] c5Token⟩

/-- Claim C1: the effective role of every resolved identity follows the
precedence persisted role, then token role claim, then the default role
user; in particular, whenever the found record carries a role, the
effective role equals it regardless of the role claim of the token. -/
theorem C1_effective_role_precedence (db : List UserRecord) (payload : Claims)
    (identity : Identity)
    (h : authenticated_user db payload = .ok identity) :
    ∃ u, usersFindOne db (strLower (payload.id.getD "")) = some u ∧
      identity.role = u.role.getD (payload.role.getD "user") ∧
      (∀ r, u.role = some r → identity.role = r) := by
  obtain ⟨u, hf, hiden⟩ := authenticated_user_ok_inv db payload identity h
  subst hiden
  refine ⟨u, hf, rfl, ?_⟩
  intro r hr
  rw [hr]
  rfl

/-- Witness for C1: a token carrying role user resolves against a record
whose stored role is authorities, and the effective role is authorities. -/
theorem C1_effective_role_precedence_witness :
    authenticated_user [sampleDbUser] samplePayload = .ok sampleIdentity ∧
    (∃ u, usersFindOne [sampleDbUser] (strLower (samplePayload.id.getD "")) = some u ∧
      sampleIdentity.role = u.role.getD (samplePayload.role.getD "user") ∧
      (∀ r, u.role = some r → sampleIdentity.role = r)) :=
  ⟨by decide,
    C1_effective_role_precedence [sampleDbUser] samplePayload sampleIdentity (by decide)⟩

/-- Claim C9: when neither the found record nor the token payload carries a
role, the effective role of the resolved identity is exactly the string
user, so the role gate never sees an identity without a role. -/
theorem C9_default_role (db : List UserRecord) (payload : Claims)
    (identity : Identity)
    (h : authenticated_user db payload = .ok identity)
    (hrole : payload.role = none)
    (hdb : ∀ u, usersFindOne db (strLower (payload.id.getD "")) = some u →
      u.role = none) :
    identity.role = "user" := by
  obtain ⟨u, hf, hiden⟩ := authenticated_user_ok_inv db payload identity h
  subst hiden
  show u.role.getD (payload.role.getD "user") = "user"
  rw [hdb u hf, hrole]
  rfl

/-- A persisted record whose stored document has no role key. -/
def c9DbUser : UserRecord :=
  { oid := sampleOid, username := "ama", email := "ama@example.com"
    password := "hash", role := none }

/-- A decoded payload carrying a subject but no role claim. -/
def c9Payload : Claims := { id := some sampleOid, role := none, exp := 50 }

/-- The identity resolved from c9Payload against c9DbUser. -/
def c9Identity : Identity :=
  { id := sampleOid, username := "ama", email := "ama@example.com"
    password := "hash", role := "user" }

/-- Witness for C9 at a concrete roleless record and roleless payload. -/
theorem C9_default_role_witness :
    authenticated_user [c9DbUser] c9Payload = .ok c9Identity ∧
    c9Payload.role = none ∧ c9Identity.role = "user" :=
  ⟨by decide, rfl,
    C9_default_role [c9DbUser] c9Payload c9Identity (by decide) rfl
      (by
        intro u hu
        have hfind : usersFindOne [c9DbUser] (strLower (c9Payload.id.getD "")) =
            some c9DbUser := by decide
        rw [hfind] at hu
        injection hu with hu
        rw [hu.symm]
        rfl)⟩

/-- A payload whose subject identifier is not a valid ObjectId string. -/
def c2BadIdClaims : Claims := { id := some "zzz", role := none, exp := 99 }

/-- A payload with a well-formed subject identifier that no record bears. -/
def c2GoodIdClaims : Claims := { id := some sampleOid, role := none, exp := 99 }

/-- Counterexample to claim C2: resolution rejects a malformed identifier
and a missing identity with the same 401 status but with different
caller-visible detail strings, so the two cases are distinguishable. -/
theorem C2_counterexample :
    authenticated_user [] c2BadIdClaims = .error .invalidIdFormat ∧
    authenticated_user [] c2GoodIdClaims = .error .identityNotFound ∧
    httpDetail .invalidIdFormat ≠ httpDetail .identityNotFound := by
  refine ⟨by decide, by decide, by decide⟩

/-- Claim C2 as amended: both failing resolutions carry the same 401 status
code, but their detail messages differ, so a caller can tell the malformed
identifier case from the unknown identifier case. -/
theorem C2_amended_distinguishable (db1 : List UserRecord) (p1 : Claims)
    (db2 : List UserRecord) (p2 : Claims)
    (_h1 : authenticated_user db1 p1 = .error .invalidIdFormat)
    (_h2 : authenticated_user db2 p2 = .error .identityNotFound) :
    httpStatus .invalidIdFormat = 401 ∧ httpStatus .identityNotFound = 401 ∧
    httpDetail .invalidIdFormat ≠ httpDetail .identityNotFound :=
  ⟨rfl, rfl, by decide⟩

/-- Witness for the amended claim C2 at concrete failing resolutions. -/
theorem C2_amended_distinguishable_witness :
    authenticated_user [] c2BadIdClaims = .error .invalidIdFormat ∧
    authenticated_user [] c2GoodIdClaims = .error .identityNotFound ∧
    httpStatus .invalidIdFormat = 401 ∧ httpStatus .identityNotFound = 401 ∧
    httpDetail .invalidIdFormat ≠ httpDetail .identityNotFound := by
  refine ⟨by decide, by decide, ?_⟩
  exact C2_amended_distinguishable [] c2BadIdClaims [] c2GoodIdClaims
    (by decide) (by decide)

/-- Claim C10: an issue created through post_issue stores as its owner the
entire decoded token payload injected by is_authenticated, and the
my-issues listing matches ownership by that same full payload value: the
new issue is returned for the exact payload and for no other payload, even
one with the same subject identifier. -/
theorem C10_owner_full_payload (env : Env) (now : Nat) (token : Token)
    (payload : Claims) (issues : List Issue)
    (title description region gps flyerUrl category : String)
    (issuesAfter : List Issue)
    (hauth : is_authenticated env now token = .ok payload)
    (hpost : post_issue issues title description region gps flyerUrl payload
      category = .ok issuesAfter) :
    ∃ ni, issuesAfter = issues ++ [ni] ∧ ni.owner = payload ∧
      ni.owner = token.payload ∧
      (∀ out, get_my_issues issuesAfter payload = .ok out → ni ∈ out) ∧
      (∀ other : Claims, other ≠ payload →
        ni ∉ issuesAfter.filter (fun i => i.owner == other)) := by
  unfold post_issue at hpost
  by_cases hc :
      0 < (issues.filter (fun i => i.title == title && i.owner == payload)).length
  · rw [if_pos hc] at hpost
    exact Except.noConfusion hpost
  · rw [if_neg hc] at hpost
    injection hpost with hpost
    refine ⟨{ title := title, description := description, region := region
              gps_location := gps, flyer := flyerUrl, owner := payload
              category := category, status := "pending" },
      hpost.symm, rfl, ?_, ?_, ?_⟩
    · exact (is_authenticated_ok_inv env now token payload hauth).1
    · intro out hout
      unfold get_my_issues at hout
      by_cases he : (issuesAfter.filter (fun i => i.owner == payload)).isEmpty
      · rw [if_pos he] at hout
        exact Except.noConfusion hout
      · rw [if_neg he] at hout
        injection hout with hout
        subst hout
        rw [List.mem_filter]
        refine ⟨?_, by simp⟩
        rw [hpost.symm]
        exact List.mem_append_right issues (List.mem_singleton_self _)
    · intro other hother hmem
      rw [List.mem_filter] at hmem
      have : payload = other := by
        have hb := hmem.2
        simpa using hb
      exact hother this.symm

/-- An environment with a configured secret for the C10 witness run. -/
def c10Env : Env := { jwtSecretKey := some "s3", jwtAlgorithm := none }

/-- A valid token for the C10 witness run. -/
def c10Token : Token := { payload := samplePayload, key := "s3", alg := "HS256" }

/-- The issue document the C10 witness run inserts. -/
def c10Issue : Issue :=
  { title := "pothole", description := "big", region := "Accra"
    gps_location := "5.6,-0.2", flyer := "url", owner := samplePayload
    category := "roads", status := "pending" }

/-- Witness for C10: a concrete authenticated request creating an issue. -/
theorem C10_owner_full_payload_witness :
    is_authenticated c10Env 7 c10Token = .ok samplePayload ∧
    post_issue [] "pothole" "big" "Accra" "5.6,-0.2" "url" samplePayload
      "roads" = .ok [c10Issue] ∧
    ∃ ni, ([c10Issue] : List Issue) = [] ++ [ni] ∧ ni.owner = samplePayload ∧
      ni.owner = c10Token.payload ∧
      (∀ out, get_my_issues [c10Issue] samplePayload = .ok out → ni ∈ out) ∧
      (∀ other : Claims, other ≠ samplePayload →
        ni ∉ ([c10Issue] : List Issue).filter (fun i => i.owner == other)) := by
  refine ⟨by decide, by decide, ?_⟩
  exact C10_owner_full_payload c10Env 7 c10Token samplePayload []
    "pothole" "big" "Accra" "5.6,-0.2" "url" "roads" [c10Issue]
    (by decide) (by decide)

end FixMyCity
